import Mathlib

/-
Verification development for `build_docs.py`, a documentation build script.

The script is embedded shallowly:

* `fnmatch`-style glob matching (the stdlib matcher used by `path_matches`)
  is implemented over lists of characters, following the documented
  semantics of `fnmatch.translate`: `*` matches any run of characters,
  `?` matches one character, `[...]` is a character class (with `!`
  negation, `x-y` ranges, a literal `]` first, and an unterminated `[`
  taken literally), and the whole pattern must match the whole string.
  On POSIX `os.path.normcase` is the identity, so no case folding occurs.
* The local filesystem is a partial map from path strings (rendered with
  `/` separators, as `str(path)` renders the relative `pathlib` paths of
  the script) to node kinds.  Symbolic-link resolution and hidden-file
  glob rules are not modelled; all paths involved are plain ASCII.
* External shell commands are oracles (`CmdBehavior`) describing what a
  command writes to its two output streams and its exit status.
* The process state for directory-changing steps is the current working
  directory; `sys.exit` inside `exec_command` is an outcome constructor.
-/

/-- Membership in an `fnmatch` character class body: `x-y` is an inclusive
range unless the `-` is the first or last character, which is literal. -/
def memClass : List Char → Char → Bool
  | [], _ => false
  | [x], c => x == c
  | x :: '-' :: y :: rest, c => (x ≤ c && c ≤ y) || memClass rest c
  | x :: rest, c => x == c || memClass rest c

/-- Scan for the closing `]` of a character class, returning the class body
and the rest of the pattern, or `none` when the class is unterminated. -/
def findClose : List Char → Option (List Char × List Char)
  | [] => none
  | ']' :: rest => some ([], rest)
  | c :: rest =>
      match findClose rest with
      | some (stuff, r) => some (c :: stuff, r)
      | none => none

/-- Parse a character class after an opening `[`: an optional leading `!`
negates, and a `]` right after that is part of the class body, exactly as
in `fnmatch.translate`. -/
def parseClass (ps : List Char) : Option (Bool × List Char × List Char) :=
  match ps with
  | '!' :: ps1 =>
      match ps1 with
      | ']' :: t =>
          match findClose t with
          | some (stuff, rest) => some (true, ']' :: stuff, rest)
          | none => none
      | _ =>
          match findClose ps1 with
          | some (stuff, rest) => some (true, stuff, rest)
          | none => none
  | _ =>
      match ps with
      | ']' :: t =>
          match findClose t with
          | some (stuff, rest) => some (false, ']' :: stuff, rest)
          | none => none
      | _ =>
          match findClose ps with
          | some (stuff, rest) => some (false, stuff, rest)
          | none => none

/-- Fuel-indexed matcher; each step consumes at least one unit of
pattern-plus-string length, so `pattern.length + string.length + 1` units
of fuel always suffice. -/
def fnmatchFuel : Nat → List Char → List Char → Bool
  | 0, _, _ => false
  | _ + 1, [], s => s.isEmpty
  | fuel + 1, '*' :: ps, s =>
      fnmatchFuel fuel ps s ||
        (match s with
         | [] => false
         | _ :: s2 => fnmatchFuel fuel ('*' :: ps) s2)
  | fuel + 1, '?' :: ps, s =>
      (match s with
       | [] => false
       | _ :: s2 => fnmatchFuel fuel ps s2)
  | fuel + 1, '[' :: ps, s =>
      (match parseClass ps with
       | some (neg, stuff, rest) =>
           (match s with
            | [] => false
            | c :: s2 => (neg != memClass stuff c) && fnmatchFuel fuel rest s2)
       | none =>
           (match s with
            | [] => false
            | c :: s2 => (c == '[') && fnmatchFuel fuel ps s2))
  | fuel + 1, p :: ps, s =>
      (match s with
       | [] => false
       | c :: s2 => (p == c) && fnmatchFuel fuel ps s2)

/-- Embedding of `fnmatch.fnmatch(name, pattern)` as used by the script:
the pattern must match the entire name. -/
def fnmatch (name pattern : String) : Bool :=
  fnmatchFuel (pattern.data.length + name.data.length + 1) pattern.data name.data

/-- Source: `path_matches(path, patterns)` returns
`any(fnmatch(path, pattern) for pattern in patterns)`. -/
def path_matches (path : String) (patterns : List String) : Bool :=
  patterns.any (fun pattern => fnmatch path pattern)

/-- Kinds of filesystem nodes; a symbolic link records its target path. -/
inductive NodeKind where
  | dir
  | file
  | symlink (target : String)
deriving DecidableEq

/-- A filesystem state: a partial map from path strings to node kinds. -/
def FS : Type := String → Option NodeKind

/-- Source: `WEB_DIR = pathlib.Path("c3org")`. -/
def WEB_DIR : String := "c3org"

/-- Source: `SRC_DIR = pathlib.Path("c3src")`. -/
def SRC_DIR : String := "c3src"

/-- Source: `WEB_REPO = pathlib.Path("~/repos/cogent3org").expanduser()`,
parameterised by the expanded home directory. -/
def WEB_REPO (home : String) : String := home ++ "/repos/cogent3org"

/-- Embedding of `pathlib.Path(p).exists()` on the modelled filesystem. -/
def pathExists (p : String) (fs : FS) : Bool := (fs p).isSome

/-- Whether `q` lies strictly below the directory `root` (as path strings). -/
def underRoot (root q : String) : Bool := (root ++ "/").data.isPrefixOf q.data

/-- Whether the path string `q` ends with the suffix `suf`. -/
def strEndsWith (q suf : String) : Bool := suf.data.isSuffixOf q.data

/-- Drop the leading `root ++ "/"` from a path below `root` (paths here are
ASCII, so character and byte positions coincide). -/
def stripRoot (root q : String) : String := ⟨q.data.drop (root.data.length + 1)⟩

/-- Delete the whole subtree rooted at `p` from the map. -/
def wipe (p : String) (fs : FS) : FS :=
  fun q => if q = p ∨ underRoot p q = true then none else fs q

/-- Embedding of `shutil.rmtree(p)`: recursively delete the directory tree
at `p`; raises (modelled as `none`) when `p` is not an existing directory. -/
def rmtree (p : String) (fs : FS) : Option FS :=
  match fs p with
  | some NodeKind.dir => some (wipe p fs)
  | _ => none

/-- Source lines 53-56: `remove_old_repos` iterates over
`(WEB_DIR, SRC_DIR)` and calls `shutil.rmtree(p)` for each path that
`pathlib.Path(p).exists()`. -/
def remove_old_repos (fs : FS) : Option FS :=
  (if pathExists WEB_DIR fs then rmtree WEB_DIR fs else some fs).bind
    (fun fs1 => if pathExists SRC_DIR fs1 then rmtree SRC_DIR fs1 else some fs1)

/-- Effect of `hg clone REMOTE d`: a directory `d` appears holding the
cloned tree (`tree` maps paths relative to `d` to node kinds). -/
def cloneInto (d : String) (tree : FS) (fs : FS) : FS :=
  fun q =>
    if q = d then some NodeKind.dir
    else if underRoot d q = true then tree (stripRoot d q)
    else fs q

/-- Embedding of `dest.symlink_to(target)`: create a symbolic link at
`dest` pointing to `target`; raises (`none`) when `dest` already exists. -/
def symlink_to (dest target : String) (fs : FS) : Option FS :=
  match fs dest with
  | some _ => none
  | none => some (fun q => if q = dest then some (NodeKind.symlink target) else fs q)

/-- Embedding of `src.rename(dest)`: move the node at `src` to `dest`
(raising, i.e. `none`, when `src` is absent; an existing `dest` file is
replaced). -/
def rename (src dest : String) (fs : FS) : Option FS :=
  match fs src with
  | some k => some (fun q => if q = src then none else if q = dest then some k else fs q)
  | none => none

/-- Source lines 64-78: `clone_repos` bookmarks the org repo (an external
`hg` command with no local-filesystem effect, see `bookmark_org_repo`),
clones `SRC_REPO` into `SRC_DIR` and `WEB_REPO` into `WEB_DIR`, asserts
`(SRC_DIR / "doc").exists()`, then symlinks `WEB_DIR/doc/doc` to
`SRC_DIR/doc` and renames `set_working_directory.py` and `cogent3.bib`
from `SRC_DIR/doc` into `WEB_DIR/doc`.  The two clone trees are supplied
as oracles describing what `hg clone` produces; a failing assertion is
`none` (an `AssertionError` crashes the process). -/
def clone_repos (srcTree webTree : FS) (fs : FS) : Option FS :=
  let fs1 := cloneInto SRC_DIR srcTree fs
  let fs2 := cloneInto WEB_DIR webTree fs1
  if pathExists (SRC_DIR ++ "/doc") fs2 then
    (symlink_to (WEB_DIR ++ "/doc/doc") (SRC_DIR ++ "/doc") fs2).bind (fun fs3 =>
      (rename (SRC_DIR ++ "/doc/set_working_directory.py")
          (WEB_DIR ++ "/doc/set_working_directory.py") fs3).bind (fun fs4 =>
        rename (SRC_DIR ++ "/doc/cogent3.bib") (WEB_DIR ++ "/doc/cogent3.bib") fs4))
  else none

/-- Source line 88: `draw_root = WEB_DIR / "doc/doc/draw_examples"`. -/
def drawRoot : String := WEB_DIR ++ "/doc/doc/draw_examples"

/-- Source line 87: the keep patterns of `reduce_draw_examples`. -/
def drawKeep : List String := ["*gaps-per-seq*", "*-square.py", "*README*"]

/-- Source line 99: `doc_root = WEB_DIR / "doc/doc"`. -/
def docRoot : String := WEB_DIR ++ "/doc/doc"

/-- The three fixed protective patterns of `remove_docs`. -/
def protectedDocs : List String := ["*index.rst", "*template*", "*draw_exa*"]

/-- Source line 100: `patterns = pattern, "*index.rst", "*template*", "*draw_exa*"`. -/
def docKeep (pattern : String) : List String :=
  [pattern, "*index.rst", "*template*", "*draw_exa*"]

/-- Source lines 85-94: `reduce_draw_examples` walks
`draw_root.glob("**/*")` and unlinks every enumerated entry that neither
matches a keep pattern nor is a directory.  Pointwise net effect: a path
is removed exactly when it is below the draw root, fails every keep
pattern, and is not a directory. -/
def reduce_draw_examples (fs : FS) : FS :=
  fun q =>
    match fs q with
    | none => none
    | some k =>
        if underRoot drawRoot q = true then
          if path_matches q drawKeep || (k == NodeKind.dir) then some k
          else none
        else some k

/-- Source lines 97-108: `remove_docs(pattern)` walks
`doc_root.glob("**/*.rst")` and unlinks every enumerated entry that
neither matches a keep pattern nor is a directory.  (The conditional
debug print for paths containing "template" has no filesystem effect.)
Pointwise net effect: a path is removed exactly when it is below the doc
root, ends in `.rst`, fails every keep pattern, and is not a directory. -/
def remove_docs (pattern : String) (fs : FS) : FS :=
  fun q =>
    match fs q with
    | none => none
    | some k =>
        if (underRoot docRoot q && strEndsWith q ".rst") = true then
          if path_matches q (docKeep pattern) || (k == NodeKind.dir) then some k
          else none
        else some k

/-- Stream-handling mode passed for a standard stream: `subprocess.PIPE`
(capture) or `None` (inherit, no capture). -/
inductive StreamMode where
  | pipe
  | inherit
deriving DecidableEq

/-- Oracle describing an external shell command: the text it writes to its
standard output and standard error, and its exit status (`returncode`). -/
structure CmdBehavior where
  outText : String
  errText : String
  code : Int
deriving DecidableEq

/-- What `proc.communicate()` yields for given redirections: a stream is
captured only when it was redirected to a pipe, otherwise `None`. -/
def communicate (beh : CmdBehavior) (stdoutMode stderrMode : StreamMode) :
    Option String × Option String :=
  ((if stdoutMode = StreamMode.pipe then some beh.outText else none),
   (if stderrMode = StreamMode.pipe then some beh.errText else none))

/-- Outcome of `exec_command`: either the process terminated via
`sys.exit(proc.returncode)` after writing `"FAILED: %s\n%s" % (cmnd, msg)`
to standard error (recorded as the command string and the captured error
text), or control returned to the caller with the function result. -/
inductive ExecOutcome where
  | exited (code : Int) (cmdShown : String) (errShown : Option String)
  | returned (r : Option String)
deriving DecidableEq

/-- Source lines 27-50: `exec_command(cmnd, stdout=PIPE, stderr=PIPE)`.
The body runs `subprocess.Popen(cmnd, shell=True, stderr=stderr)` — the
`stdout` parameter is not passed on, so the child's standard output is
never redirected and `communicate` yields `None` for it (hence the
`StreamMode.inherit` below, the `Popen` default, in place of the `stdout`
argument).  On a nonzero `returncode` the command string and the captured
error are written to standard error and the process exits with that code;
otherwise the captured output (decoded, modelled as the text itself) or
`None` is returned. -/
def exec_command (cmnd : String) (beh : CmdBehavior)
    (stdout stderr : StreamMode) : ExecOutcome :=
  let outErr := communicate beh StreamMode.inherit stderr
  if beh.code ≠ 0 then
    ExecOutcome.exited beh.code cmnd outErr.snd
  else
    ExecOutcome.returned outErr.fst

/-- Process state for the directory-changing steps: the current working
directory (`os.getcwd()` is always an absolute path). -/
structure Proc where
  dir : String
deriving DecidableEq

/-- Whether a POSIX path string is absolute. -/
def isAbsolute (p : String) : Bool := p.data.head? == some '/'

/-- Embedding of `os.chdir(p)`: a relative path resolves against the
current directory. -/
def chdir (p : String) (s : Proc) : Proc :=
  { dir := if isAbsolute p then p else s.dir ++ "/" ++ p }

/-- Source lines 11-18: the `cwd(path)` context manager saves
`os.getcwd()`, changes into `path`, runs the body, and in its `finally`
block changes back to the saved directory — also when the body raised
(the raised outcome, e.g. the `SystemExit` from a failed `exec_command`,
still propagates, as the second component). -/
def cwdScoped (path : String) (body : Proc → Proc × Option Int) (s : Proc) :
    Proc × Option Int :=
  let oldpwd := s.dir
  let res := body (chdir path s)
  (chdir oldpwd res.fst, res.snd)

/-- Running `exec_command` as a process step: the directory is unchanged,
and a nonzero exit status becomes a propagating `SystemExit` code. -/
def execStep (cmnd : String) (beh : CmdBehavior) (s : Proc) : Proc × Option Int :=
  match exec_command cmnd beh StreamMode.pipe StreamMode.pipe with
  | ExecOutcome.exited c _ _ => (s, some c)
  | ExecOutcome.returned _ => (s, none)

/-- Source lines 58-61: `bookmark_org_repo` runs
`exec_command("hg bookmark develop -f")` inside `with cwd(WEB_REPO)`. -/
def bookmark_org_repo (home : String) (beh : CmdBehavior) (s : Proc) :
    Proc × Option Int :=
  cwdScoped (WEB_REPO home) (execStep "hg bookmark develop -f" beh) s

/-- Source lines 111-117: `build_docs` does `os.chdir(WEB_DIR)`, runs
`hg up develop` and `ls`, then `os.chdir("doc")` and runs `make github`;
the current directory is never restored. -/
def build_docs (behUp behLs behMake : CmdBehavior) (s : Proc) :
    Proc × Option Int :=
  let s1 := chdir WEB_DIR s
  let r1 := execStep "hg up develop" behUp s1
  match r1.snd with
  | some c => (r1.fst, some c)
  | none =>
      let r2 := execStep "ls" behLs r1.fst
      match r2.snd with
      | some c => (r2.fst, some c)
      | none =>
          let s2 := chdir "doc" r2.fst
          let r3 := execStep "make github" behMake s2
          (r3.fst, r3.snd)

/-- Result of invoking the `build-just` front end on the modelled
filesystem: the framework printed usage help and exited with the given
code before any side effect, or a filesystem operation raised
(assertion or OS error), or the body ran to the external build step. -/
inductive RunResult where
  | helpExit (code : Int) (fs : FS)
  | crashed
  | finished (fs : FS)

/-- Modelled from the spec: the command-line front end (the `click`
framework, external to the script) runs `build_just` with
`no_args_is_help=True`, so an invocation with neither `--pattern` (`-p`)
nor `--simplify_draw` (`-s`) prints the usage help and exits nonzero (usage
errors report status 2) before the command body is entered.  The body
follows source lines 137-148: remove old clones, clone and link the
repos, optionally prune the drawing examples, prune docs when a
non-empty pattern was given (`if pattern:` is false for the empty
string), then build. -/
def build_just (pattern : Option String) (simplify_draw : Bool)
    (srcTree webTree : FS) (fs : FS) : RunResult :=
  if pattern = none ∧ simplify_draw = false then
    RunResult.helpExit 2 fs
  else
    match remove_old_repos fs with
    | none => RunResult.crashed
    | some fs1 =>
        match clone_repos srcTree webTree fs1 with
        | none => RunResult.crashed
        | some fs2 =>
            let fs3 := if simplify_draw then reduce_draw_examples fs2 else fs2
            let fs4 :=
              match pattern with
              | some p => if p ≠ "" then remove_docs p fs3 else fs3
              | none => fs3
            RunResult.finished fs4

/-- Concrete docs tree for the `remove_docs("*tutorial*")` case. -/
def docsCaseFS : FS := fun q =>
  if q = "c3org" then some NodeKind.dir
  else if q = "c3org/doc" then some NodeKind.dir
  else if q = "c3org/doc/doc" then some NodeKind.dir
  else if q = "c3org/doc/doc/intro_index.rst" then some NodeKind.file
  else if q = "c3org/doc/doc/tutorial_basic.rst" then some NodeKind.file
  else if q = "c3org/doc/doc/advanced.rst" then some NodeKind.file
  else if q = "c3org/doc/doc/template_foo.rst" then some NodeKind.file
  else none

/-- Concrete examples tree for the `reduce_draw_examples()` case. -/
def drawCaseFS : FS := fun q =>
  if q = "c3org" then some NodeKind.dir
  else if q = "c3org/doc" then some NodeKind.dir
  else if q = "c3org/doc/doc" then some NodeKind.dir
  else if q = "c3org/doc/doc/draw_examples" then some NodeKind.dir
  else if q = "c3org/doc/doc/draw_examples/plot-square.py" then some NodeKind.file
  else if q = "c3org/doc/doc/draw_examples/scatter.py" then some NodeKind.file
  else if q = "c3org/doc/doc/draw_examples/README.rst" then some NodeKind.file
  else if q = "c3org/doc/doc/draw_examples/gaps-per-seq-1.png" then some NodeKind.file
  else none

/-- Filesystem with a single non-`.rst` file below the doc root. -/
def nonRstFS : FS := fun q =>
  if q = "c3org/doc/doc/notes.txt" then some NodeKind.file else none

/-- Source clone tree used as a concrete witness input. -/
def srcTreeW : FS := fun q =>
  if q = "doc" then some NodeKind.dir
  else if q = "doc/set_working_directory.py" then some NodeKind.file
  else if q = "doc/cogent3.bib" then some NodeKind.file
  else none

/-- Site clone tree used as a concrete witness input. -/
def webTreeW : FS := fun q =>
  if q = "doc" then some NodeKind.dir else none

/-- The everywhere-empty filesystem. -/
def emptyFS : FS := fun _ => none


/-- Whether an optional node is a directory whenever it is present (the
states the spec allows for the two fixed clone directories). -/
def dirIfPresent (o : Option NodeKind) : Bool :=
  match o with
  | some k => k == NodeKind.dir
  | none => true

/-- Point update of a filesystem map (the shape `symlink_to` and `rename`
produce). -/
def upd (p : String) (v : Option NodeKind) (g : FS) : FS :=
  fun q => if q = p then v else g q

/-- Filesystem with a stale `c3org` clone directory, used as a concrete
witness input. -/
def staleCloneFS : FS := fun q =>
  if q = "c3org" then some NodeKind.dir else none

lemma path_matches_docKeep_split (q pattern : String) :
    path_matches q (docKeep pattern) = (fnmatch q pattern || path_matches q protectedDocs) := rfl

/-- C1: the spec says a command that writes known text to standard output
and exits 0 has that text returned (decoded) by `exec_command` with its
default stream arguments; the code never passes its `stdout` argument to
`Popen`, so nothing is captured and `None` is returned — here evaluated at
a command writing `"hello\n"` and exiting 0. -/
theorem exec_command_stdout_not_captured :
    exec_command "echo hello" ⟨"hello\n", "", 0⟩ StreamMode.pipe StreamMode.pipe
      = ExecOutcome.returned none
    ∧ exec_command "echo hello" ⟨"hello\n", "", 0⟩ StreamMode.pipe StreamMode.pipe
      ≠ ExecOutcome.returned (some "hello\n") := by
  exact ⟨rfl, by decide⟩

/-- C10: `exec_command` never wires its `stdout` argument into the spawned
subprocess, so for every command behaviour with exit status 0 and every
value of the `stdout` argument the result is `returned none`. -/
theorem exec_command_success_returns_none (cmnd : String) (beh : CmdBehavior)
    (stdout stderr : StreamMode) (h : beh.code = 0) :
    exec_command cmnd beh stdout stderr = ExecOutcome.returned none := by
  simp [exec_command, communicate, h]

theorem exec_command_success_returns_none_witness :
    exec_command "ls" ⟨"a.txt\n", "", 0⟩ StreamMode.inherit StreamMode.pipe
      = ExecOutcome.returned none :=
  exec_command_success_returns_none "ls" ⟨"a.txt\n", "", 0⟩
    StreamMode.inherit StreamMode.pipe rfl

/-- C3: for every command behaviour with a nonzero exit status, the
outcome of `exec_command` (with the captured-stderr default) is process
termination with that same status, carrying the command string and the
captured error text to diagnostic output; control never returns to the
caller (the outcome is never `returned`). -/
theorem exec_command_fatal_on_nonzero (cmnd : String) (beh : CmdBehavior)
    (stdout : StreamMode) (h : beh.code ≠ 0) :
    exec_command cmnd beh stdout StreamMode.pipe
      = ExecOutcome.exited beh.code cmnd (some beh.errText) := by
  simp [exec_command, communicate, h]

theorem exec_command_fatal_on_nonzero_witness :
    exec_command "hg clone missing c3src" ⟨"", "abort: repository missing not found\n", 255⟩
      StreamMode.pipe StreamMode.pipe
      = ExecOutcome.exited 255 "hg clone missing c3src"
          (some "abort: repository missing not found\n") :=
  exec_command_fatal_on_nonzero "hg clone missing c3src"
    ⟨"", "abort: repository missing not found\n", 255⟩ StreamMode.pipe (by decide)

/-- C7: over a docs tree holding `intro_index.rst`, `tutorial_basic.rst`,
`advanced.rst` and `template_foo.rst`, `remove_docs("*tutorial*")` keeps
the index, the pattern match and the template file, and deletes
`advanced.rst`. -/
theorem remove_docs_tutorial_case :
    remove_docs "*tutorial*" docsCaseFS "c3org/doc/doc/intro_index.rst" = some NodeKind.file
    ∧ remove_docs "*tutorial*" docsCaseFS "c3org/doc/doc/tutorial_basic.rst" = some NodeKind.file
    ∧ remove_docs "*tutorial*" docsCaseFS "c3org/doc/doc/template_foo.rst" = some NodeKind.file
    ∧ remove_docs "*tutorial*" docsCaseFS "c3org/doc/doc/advanced.rst" = none := by
  decide

/-- C8: over an examples tree holding `plot-square.py`, `scatter.py`,
`README.rst` and `gaps-per-seq-1.png`, `reduce_draw_examples()` keeps the
first, third and fourth and deletes `scatter.py`. -/
theorem reduce_draw_examples_case :
    reduce_draw_examples drawCaseFS "c3org/doc/doc/draw_examples/plot-square.py" = some NodeKind.file
    ∧ reduce_draw_examples drawCaseFS "c3org/doc/doc/draw_examples/README.rst" = some NodeKind.file
    ∧ reduce_draw_examples drawCaseFS "c3org/doc/doc/draw_examples/gaps-per-seq-1.png" = some NodeKind.file
    ∧ reduce_draw_examples drawCaseFS "c3org/doc/doc/draw_examples/scatter.py" = none := by
  decide

/-- C2 counterexample: the file `c3org/doc/doc/notes.txt` matches none of
the keep-patterns of `remove_docs("*tutorial*")` and is not a directory,
yet it survives, because `remove_docs` only enumerates `**/*.rst`
entries — refuting the claimed if-and-only-if at this input. -/
theorem remove_docs_skips_nonrst :
    path_matches "c3org/doc/doc/notes.txt" (docKeep "*tutorial*") = false
    ∧ nonRstFS "c3org/doc/doc/notes.txt" = some NodeKind.file
    ∧ NodeKind.file ≠ NodeKind.dir
    ∧ remove_docs "*tutorial*" nonRstFS "c3org/doc/doc/notes.txt" = some NodeKind.file := by
  decide

/-- C4: invoking `build-just` with neither option yields the help-and-exit
outcome with the nonzero usage status, and the filesystem it reports is
exactly the input filesystem — untouched. -/
theorem build_just_no_args_help_exit (srcTree webTree : FS) (fs : FS) :
    build_just none false srcTree webTree fs = RunResult.helpExit 2 fs
    ∧ (2 : Int) ≠ 0 := by
  exact ⟨rfl, by decide⟩

lemma upd_same (p : String) (v : Option NodeKind) (g : FS) : upd p v g p = v := by
  unfold upd
  rw [if_pos rfl]

lemma upd_other (p : String) (v : Option NodeKind) (g : FS) (q : String) (h : q ≠ p) :
    upd p v g q = g q := by
  unfold upd
  rw [if_neg h]

lemma cloneInto_skip (d : String) (tree g : FS) (q : String)
    (hq1 : q ≠ d) (hq2 : underRoot d q = false) :
    cloneInto d tree g q = g q := by
  unfold cloneInto
  rw [if_neg hq1, if_neg (by simp [hq2])]

lemma cloneInto_under (d : String) (tree g : FS) (q : String)
    (hq1 : q ≠ d) (hq2 : underRoot d q = true) :
    cloneInto d tree g q = tree (stripRoot d q) := by
  unfold cloneInto
  rw [if_neg hq1, if_pos hq2]

lemma upd_eval_eq (p : String) (v : Option NodeKind) (g : FS) (q : String) (h : q = p) :
    upd p v g q = v := by
  rw [h]
  exact upd_same p v g

/-- C6: `remove_old_repos` is idempotent: on any filesystem where the two
fixed clone names are directories when present, it succeeds (also when
both are already absent), leaves both directories absent, and running it
again from that state succeeds and changes nothing. -/
theorem remove_old_repos_idempotent (fs : FS)
    (h1 : dirIfPresent (fs WEB_DIR) = true)
    (h2 : dirIfPresent (fs SRC_DIR) = true) :
    ∃ fs1, remove_old_repos fs = some fs1
      ∧ pathExists WEB_DIR fs1 = false
      ∧ pathExists SRC_DIR fs1 = false
      ∧ remove_old_repos fs1 = some fs1 := by
  obtain ⟨g, hg1, hg2, hg3⟩ :
      ∃ g, (if pathExists WEB_DIR fs then rmtree WEB_DIR fs else some fs) = some g
        ∧ g WEB_DIR = none ∧ g SRC_DIR = fs SRC_DIR := by
    rcases hw : fs WEB_DIR with _ | k
    · exact ⟨fs, by simp [pathExists, hw], hw, rfl⟩
    · have hk : k = NodeKind.dir := by
        rw [hw] at h1
        simpa [dirIfPresent] using h1
      subst hk
      refine ⟨wipe WEB_DIR fs, ?_, ?_, ?_⟩
      · have hex : pathExists WEB_DIR fs = true := by simp [pathExists, hw]
        rw [hex, if_pos rfl]
        unfold rmtree
        rw [hw]
      · show (if WEB_DIR = WEB_DIR ∨ underRoot WEB_DIR WEB_DIR = true then none
            else fs WEB_DIR) = none
        rw [if_pos (Or.inl rfl)]
      · show (if SRC_DIR = WEB_DIR ∨ underRoot WEB_DIR SRC_DIR = true then none
            else fs SRC_DIR) = fs SRC_DIR
        rw [if_neg (by decide)]
  obtain ⟨fs1, hf1, hf2, hf3⟩ :
      ∃ fs1, (if pathExists SRC_DIR g then rmtree SRC_DIR g else some g) = some fs1
        ∧ fs1 SRC_DIR = none ∧ fs1 WEB_DIR = none := by
    rcases hs : g SRC_DIR with _ | k
    · exact ⟨g, by simp [pathExists, hs], hs, hg2⟩
    · have hk : k = NodeKind.dir := by
        rw [hg3] at hs
        rw [hs] at h2
        simpa [dirIfPresent] using h2
      subst hk
      refine ⟨wipe SRC_DIR g, ?_, ?_, ?_⟩
      · have hex : pathExists SRC_DIR g = true := by simp [pathExists, hs]
        rw [hex, if_pos rfl]
        unfold rmtree
        rw [hs]
      · show (if SRC_DIR = SRC_DIR ∨ underRoot SRC_DIR SRC_DIR = true then none
            else g SRC_DIR) = none
        rw [if_pos (Or.inl rfl)]
      · show (if WEB_DIR = SRC_DIR ∨ underRoot SRC_DIR WEB_DIR = true then none
            else g WEB_DIR) = none
        rw [if_neg (by decide)]
        exact hg2
  refine ⟨fs1, ?_, ?_, ?_, ?_⟩
  · unfold remove_old_repos
    rw [hg1, Option.some_bind, hf1]
  · simp [pathExists, hf3]
  · simp [pathExists, hf2]
  · unfold remove_old_repos
    have e1 : pathExists WEB_DIR fs1 = false := by simp [pathExists, hf3]
    have e2 : pathExists SRC_DIR fs1 = false := by simp [pathExists, hf2]
    rw [e1, if_neg (by decide), Option.some_bind, e2, if_neg (by decide)]

/-- C9: the bookmark step run inside the clone step restores the current
directory to its previous value afterwards — for every body outcome,
including a failing `hg bookmark` command — whereas `build_docs` changes
the current directory and leaves it changed on return (at the site
clone's doc subdirectory, a different directory from the starting one). -/
theorem cwd_scope_restores_build_leaves (home : String)
    (beh behUp behLs behMake : CmdBehavior) (s t : Proc)
    (hs : isAbsolute s.dir = true) (h1 : behUp.code = 0) (h2 : behLs.code = 0) :
    (bookmark_org_repo home beh s).fst.dir = s.dir
    ∧ (build_docs behUp behLs behMake t).fst.dir = t.dir ++ "/c3org/doc"
    ∧ (build_docs behUp behLs behMake t).fst.dir ≠ t.dir := by
  have c1 : exec_command "hg up develop" behUp StreamMode.pipe StreamMode.pipe
      = ExecOutcome.returned none := by
    simp [exec_command, communicate, h1]
  have c2 : exec_command "ls" behLs StreamMode.pipe StreamMode.pipe
      = ExecOutcome.returned none := by
    simp [exec_command, communicate, h2]
  have hlit : ("/" : String) ++ ("c3org" ++ ("/" ++ "doc")) = "/c3org/doc" := by decide
  have hb : (build_docs behUp behLs behMake t).fst.dir = t.dir ++ "/c3org/doc" := by
    cases hm : exec_command "make github" behMake StreamMode.pipe StreamMode.pipe with
    | exited c cs es =>
        simp [build_docs, execStep, c1, c2, hm, chdir, isAbsolute, WEB_DIR,
          String.append_assoc, hlit]
    | returned r =>
        simp [build_docs, execStep, c1, c2, hm, chdir, isAbsolute, WEB_DIR,
          String.append_assoc, hlit]
  refine ⟨?_, hb, ?_⟩
  · simp [bookmark_org_repo, cwdScoped, chdir, hs]
  · rw [hb]
    intro hEq
    have := congrArg String.length hEq
    rw [String.length_append] at this
    have h10 : ("/c3org/doc" : String).length = 10 := by decide
    omega

/-- C2 (amended): a filesystem entry is deleted by a File Filter variant
exactly when it is enumerated by that variant's traversal (any entry
below the draw-examples root for `reduce_draw_examples`; entries ending
in `.rst` below the doc root for `remove_docs`), its path matches none
of the keep-patterns, and it is not a directory; an entry matching a
fixed protected pattern always survives `remove_docs` regardless of the
caller-supplied pattern, and a directory is never deleted. -/
theorem file_filter_delete_iff (pattern : String) (fs : FS) (q : String) (k : NodeKind)
    (h : fs q = some k) :
    (remove_docs pattern fs q = none ↔
       (underRoot docRoot q = true ∧ strEndsWith q ".rst" = true
         ∧ path_matches q (docKeep pattern) = false ∧ k ≠ NodeKind.dir))
    ∧ (reduce_draw_examples fs q = none ↔
       (underRoot drawRoot q = true
         ∧ path_matches q drawKeep = false ∧ k ≠ NodeKind.dir))
    ∧ (path_matches q protectedDocs = true → remove_docs pattern fs q = some k)
    ∧ (k = NodeKind.dir →
        remove_docs pattern fs q = some k ∧ reduce_draw_examples fs q = some k) := by
  have hd : remove_docs pattern fs q =
      (if (underRoot docRoot q && strEndsWith q ".rst") = true then
        if path_matches q (docKeep pattern) || (k == NodeKind.dir) then some k else none
      else some k) := by
    unfold remove_docs
    rw [h]
  have hr : reduce_draw_examples fs q =
      (if underRoot drawRoot q = true then
        if path_matches q drawKeep || (k == NodeKind.dir) then some k else none
      else some k) := by
    unfold reduce_draw_examples
    rw [h]
  refine ⟨?_, ?_, ?_, ?_⟩
  · rw [hd]
    cases hu : underRoot docRoot q <;> cases he : strEndsWith q ".rst" <;>
      cases hm : path_matches q (docKeep pattern) <;> cases hk : k == NodeKind.dir <;>
        simp_all
  · rw [hr]
    cases hu : underRoot drawRoot q <;>
      cases hm : path_matches q drawKeep <;> cases hk : k == NodeKind.dir <;>
        simp_all
  · intro hp
    have hmk : path_matches q (docKeep pattern) = true := by
      rw [path_matches_docKeep_split, hp, Bool.or_true]
    rw [hd, hmk]
    cases hcond : (underRoot docRoot q && strEndsWith q ".rst") <;> simp
  · intro hk
    subst hk
    rw [hd, hr]
    refine ⟨?_, ?_⟩ <;> simp

/-- C5: after cloning both repositories, `clone_repos` asserts that the
`doc` subdirectory exists inside the source clone — crashing when it is
absent (second conjunct) — and otherwise creates a symbolic link (not a
copy) at `c3org/doc/doc` pointing at `c3src/doc`, and moves (not copies)
the working-directory-setup script and the bibliography file from
`c3src/doc` into `c3org/doc`: afterwards both files exist at the
destination and no longer exist at their original location. -/
theorem clone_repos_links_and_moves (srcTree webTree fs : FS)
    (h1 : srcTree "doc" = some NodeKind.dir)
    (h2 : srcTree "doc/set_working_directory.py" = some NodeKind.file)
    (h3 : srcTree "doc/cogent3.bib" = some NodeKind.file)
    (h4 : webTree "doc/doc" = none) :
    (∃ fs2, clone_repos srcTree webTree fs = some fs2
       ∧ fs2 "c3org/doc/doc" = some (NodeKind.symlink "c3src/doc")
       ∧ fs2 "c3org/doc/set_working_directory.py" = some NodeKind.file
       ∧ fs2 "c3org/doc/cogent3.bib" = some NodeKind.file
       ∧ fs2 "c3src/doc/set_working_directory.py" = none
       ∧ fs2 "c3src/doc/cogent3.bib" = none)
    ∧ (∀ src2 web2 g : FS, src2 "doc" = none → clone_repos src2 web2 g = none) := by
  constructor
  · refine ⟨upd (SRC_DIR ++ "/doc/cogent3.bib") none
      (upd (WEB_DIR ++ "/doc/cogent3.bib") (some NodeKind.file)
        (upd (SRC_DIR ++ "/doc/set_working_directory.py") none
          (upd (WEB_DIR ++ "/doc/set_working_directory.py") (some NodeKind.file)
            (upd (WEB_DIR ++ "/doc/doc") (some (NodeKind.symlink (SRC_DIR ++ "/doc")))
              (cloneInto WEB_DIR webTree (cloneInto SRC_DIR srcTree fs)))))),
      ?_, ?_, ?_, ?_, ?_, ?_⟩
    · have eSrcDoc : cloneInto WEB_DIR webTree (cloneInto SRC_DIR srcTree fs)
          (SRC_DIR ++ "/doc") = some NodeKind.dir := by
        rw [cloneInto_skip _ _ _ _ (by decide) (by decide),
            cloneInto_under _ _ _ _ (by decide) (by decide),
            show stripRoot SRC_DIR (SRC_DIR ++ "/doc") = "doc" from by decide, h1]
      have ePE : pathExists (SRC_DIR ++ "/doc")
          (cloneInto WEB_DIR webTree (cloneInto SRC_DIR srcTree fs)) = true := by
        unfold pathExists
        rw [eSrcDoc]
        rfl
      have eDD : cloneInto WEB_DIR webTree (cloneInto SRC_DIR srcTree fs)
          (WEB_DIR ++ "/doc/doc") = none := by
        rw [cloneInto_under _ _ _ _ (by decide) (by decide),
            show stripRoot WEB_DIR (WEB_DIR ++ "/doc/doc") = "doc/doc" from by decide, h4]
      have step1 : symlink_to (WEB_DIR ++ "/doc/doc") (SRC_DIR ++ "/doc")
          (cloneInto WEB_DIR webTree (cloneInto SRC_DIR srcTree fs))
          = some (upd (WEB_DIR ++ "/doc/doc") (some (NodeKind.symlink (SRC_DIR ++ "/doc")))
              (cloneInto WEB_DIR webTree (cloneInto SRC_DIR srcTree fs))) := by
        unfold symlink_to
        rw [eDD]
        rfl
      have eCs : upd (WEB_DIR ++ "/doc/doc") (some (NodeKind.symlink (SRC_DIR ++ "/doc")))
          (cloneInto WEB_DIR webTree (cloneInto SRC_DIR srcTree fs))
          (SRC_DIR ++ "/doc/set_working_directory.py") = some NodeKind.file := by
        rw [upd_other _ _ _ _ (by decide),
            cloneInto_skip _ _ _ _ (by decide) (by decide),
            cloneInto_under _ _ _ _ (by decide) (by decide),
            show stripRoot SRC_DIR (SRC_DIR ++ "/doc/set_working_directory.py")
              = "doc/set_working_directory.py" from by decide, h2]
      have step2 : rename (SRC_DIR ++ "/doc/set_working_directory.py")
          (WEB_DIR ++ "/doc/set_working_directory.py")
          (upd (WEB_DIR ++ "/doc/doc") (some (NodeKind.symlink (SRC_DIR ++ "/doc")))
            (cloneInto WEB_DIR webTree (cloneInto SRC_DIR srcTree fs)))
          = some (upd (SRC_DIR ++ "/doc/set_working_directory.py") none
              (upd (WEB_DIR ++ "/doc/set_working_directory.py") (some NodeKind.file)
                (upd (WEB_DIR ++ "/doc/doc") (some (NodeKind.symlink (SRC_DIR ++ "/doc")))
                  (cloneInto WEB_DIR webTree (cloneInto SRC_DIR srcTree fs))))) := by
        unfold rename
        rw [eCs]
        rfl
      have eDb : upd (SRC_DIR ++ "/doc/set_working_directory.py") none
          (upd (WEB_DIR ++ "/doc/set_working_directory.py") (some NodeKind.file)
            (upd (WEB_DIR ++ "/doc/doc") (some (NodeKind.symlink (SRC_DIR ++ "/doc")))
              (cloneInto WEB_DIR webTree (cloneInto SRC_DIR srcTree fs))))
          (SRC_DIR ++ "/doc/cogent3.bib") = some NodeKind.file := by
        rw [upd_other _ _ _ _ (by decide), upd_other _ _ _ _ (by decide),
            upd_other _ _ _ _ (by decide),
            cloneInto_skip _ _ _ _ (by decide) (by decide),
            cloneInto_under _ _ _ _ (by decide) (by decide),
            show stripRoot SRC_DIR (SRC_DIR ++ "/doc/cogent3.bib")
              = "doc/cogent3.bib" from by decide, h3]
      have step3 : rename (SRC_DIR ++ "/doc/cogent3.bib") (WEB_DIR ++ "/doc/cogent3.bib")
          (upd (SRC_DIR ++ "/doc/set_working_directory.py") none
            (upd (WEB_DIR ++ "/doc/set_working_directory.py") (some NodeKind.file)
              (upd (WEB_DIR ++ "/doc/doc") (some (NodeKind.symlink (SRC_DIR ++ "/doc")))
                (cloneInto WEB_DIR webTree (cloneInto SRC_DIR srcTree fs)))))
          = some (upd (SRC_DIR ++ "/doc/cogent3.bib") none
              (upd (WEB_DIR ++ "/doc/cogent3.bib") (some NodeKind.file)
                (upd (SRC_DIR ++ "/doc/set_working_directory.py") none
                  (upd (WEB_DIR ++ "/doc/set_working_directory.py") (some NodeKind.file)
                    (upd (WEB_DIR ++ "/doc/doc") (some (NodeKind.symlink (SRC_DIR ++ "/doc")))
                      (cloneInto WEB_DIR webTree (cloneInto SRC_DIR srcTree fs))))))) := by
        unfold rename
        rw [eDb]
        rfl
      simp only [clone_repos]
      rw [ePE, if_pos rfl, step1, Option.some_bind, step2, Option.some_bind, step3]
    · rw [upd_other _ _ _ _ (by decide), upd_other _ _ _ _ (by decide),
          upd_other _ _ _ _ (by decide), upd_other _ _ _ _ (by decide),
          upd_eval_eq _ _ _ _ (by decide)]
      decide
    · rw [upd_other _ _ _ _ (by decide), upd_other _ _ _ _ (by decide),
          upd_other _ _ _ _ (by decide), upd_eval_eq _ _ _ _ (by decide)]
    · rw [upd_other _ _ _ _ (by decide), upd_eval_eq _ _ _ _ (by decide)]
    · rw [upd_other _ _ _ _ (by decide), upd_other _ _ _ _ (by decide),
          upd_eval_eq _ _ _ _ (by decide)]
    · rw [upd_eval_eq _ _ _ _ (by decide)]
  · intro src2 web2 g h0
    have e : cloneInto WEB_DIR web2 (cloneInto SRC_DIR src2 g) (SRC_DIR ++ "/doc") = none := by
      rw [cloneInto_skip _ _ _ _ (by decide) (by decide),
          cloneInto_under _ _ _ _ (by decide) (by decide),
          show stripRoot SRC_DIR (SRC_DIR ++ "/doc") = "doc" from by decide, h0]
    have e2 : pathExists (SRC_DIR ++ "/doc")
        (cloneInto WEB_DIR web2 (cloneInto SRC_DIR src2 g)) = false := by
      unfold pathExists
      rw [e]
      rfl
    simp only [clone_repos]
    rw [e2, if_neg (by decide)]

theorem remove_old_repos_idempotent_witness :
    ∃ fs1, remove_old_repos staleCloneFS = some fs1
      ∧ pathExists WEB_DIR fs1 = false
      ∧ pathExists SRC_DIR fs1 = false
      ∧ remove_old_repos fs1 = some fs1 :=
  remove_old_repos_idempotent staleCloneFS (by decide) (by decide)

theorem cwd_scope_restores_build_leaves_witness :
    (bookmark_org_repo "/home/u" ⟨"", "abort\n", 255⟩ ⟨"/tmp"⟩).fst.dir = "/tmp"
    ∧ (build_docs ⟨"", "", 0⟩ ⟨"", "", 0⟩ ⟨"", "", 0⟩ ⟨"/tmp"⟩).fst.dir
        = "/tmp" ++ "/c3org/doc"
    ∧ (build_docs ⟨"", "", 0⟩ ⟨"", "", 0⟩ ⟨"", "", 0⟩ ⟨"/tmp"⟩).fst.dir ≠ "/tmp" :=
  cwd_scope_restores_build_leaves "/home/u" ⟨"", "abort\n", 255⟩ ⟨"", "", 0⟩
    ⟨"", "", 0⟩ ⟨"", "", 0⟩ ⟨"/tmp"⟩ ⟨"/tmp"⟩ (by decide) rfl rfl

theorem file_filter_delete_iff_witness :
    docsCaseFS "c3org/doc/doc/template_foo.rst" = some NodeKind.file
    ∧ path_matches "c3org/doc/doc/template_foo.rst" protectedDocs = true
    ∧ remove_docs "*tutorial*" docsCaseFS "c3org/doc/doc/template_foo.rst"
        = some NodeKind.file :=
  ⟨by decide, by decide,
   (file_filter_delete_iff "*tutorial*" docsCaseFS "c3org/doc/doc/template_foo.rst"
      NodeKind.file (by decide)).2.2.1 (by decide)⟩

theorem clone_repos_links_and_moves_witness :
    srcTreeW "doc" = some NodeKind.dir
    ∧ webTreeW "doc/doc" = none
    ∧ (∃ fs2, clone_repos srcTreeW webTreeW emptyFS = some fs2
        ∧ fs2 "c3org/doc/doc" = some (NodeKind.symlink "c3src/doc")
        ∧ fs2 "c3org/doc/set_working_directory.py" = some NodeKind.file
        ∧ fs2 "c3org/doc/cogent3.bib" = some NodeKind.file
        ∧ fs2 "c3src/doc/set_working_directory.py" = none
        ∧ fs2 "c3src/doc/cogent3.bib" = none) :=
  ⟨by decide, by decide,
   (clone_repos_links_and_moves srcTreeW webTreeW emptyFS (by decide) (by decide)
      (by decide) (by decide)).1⟩
